import Mathlib

/-!
Shallow embedding of the asynchronous job-execution subsystem of the
BlueprintX backend: the job and dead-letter data model (app/jobs/models.py,
app/jobs/dlq.py), the two job-store backends (app/jobs/store.py), the
dead-letter-store backends (app/jobs/dlq.py) and the job runner
(app/jobs/runner.py).

Conventions of the embedding:
* Python datetime values are modelled as natural-number timestamps in
  seconds; every operation that reads the wall clock receives the current
  time as an explicit argument named now.
* Python float quantities (progress, retry delays, backoff parameters) are
  modelled as rationals.
* Python dictionaries are modelled as insertion-ordered association lists
  (alistGet / alistSet / alistRemove), matching ordered-dict semantics.
* Opaque dict[str, Any] payloads (job input and output) are modelled by the
  association type Dict; the core never inspects them.
* Redis is modelled by the part of its state the stores touch: string keys
  holding a (deserialized) record together with its remaining TTL in
  seconds, sorted sets (member/score association lists) and one hash.
  JSON (de)serialization (model_dump_json / model_validate_json) is
  modelled as an identity round-trip.
* The Job pydantic model (models.py lines 30-52) declares exactly the
  fields job_id, type, status, input, output, error, progress, project_id,
  document_id, created_by, created_at, started_at and completed_at.  It
  declares NO attempt_count, max_retries, last_error or next_retry_at
  field, although store.py, runner.py and routes use those names.  The
  repository is on pydantic v2 (it uses pydantic_settings and
  field_validator, which exist only for v2), where, with the default model
  configuration:
  - unknown keyword arguments to the constructor are silently dropped
    (default extra policy is "ignore"), so Job(..., max_retries=...)
    succeeds and discards the value;
  - reading an undeclared attribute raises AttributeError;
  - assigning an undeclared attribute raises ValueError
    ("object has no field ...").
  The embedding mirrors these runtime semantics through the PyErr error
  type: operations that can raise return an Except PyErr result, paired
  with the store state that results (in-place mutations performed before a
  raise persist for the in-memory backends).
-/

namespace BlueprintX

/-- Timestamps in seconds (stand-in for datetime.utcnow()). -/
abbrev Timestamp := Nat

/-- Opaque dict[str, Any] payload (job input / output); never inspected. -/
abbrev Dict := List (String × String)

/-- Runtime errors of the Python code that the embedding can surface:
pydantic v2 raises AttributeError when an undeclared attribute is read and
ValueError when an undeclared attribute is assigned. -/
inductive PyErr where
  | attributeError (attr : String)
  | valueError (attr : String)
deriving DecidableEq, Repr

/-- JobStatus enum (models.py lines 10-17). -/
inductive JobStatus where
  | queued
  | running
  | succeeded
  | failed
  | cancelled
deriving DecidableEq, Repr

/-- JobType enum (models.py lines 20-27). -/
inductive JobType where
  | document_ingest
  | plan_summary
  | trade_scope_extract
  | tender_scope_doc
  | qna
deriving DecidableEq, Repr

/-- FailureReason enum (dlq.py lines 21-29). -/
inductive FailureReason where
  | max_retries_exceeded
  | permanent_error
  | timeout
  | invalid_input
  | external_service_error
  | unknown
deriving DecidableEq, Repr

/-- Association-list lookup: first binding wins (Python dict lookup; keys of
the modelled dicts are unique by construction of alistSet). -/
def alistGet {κ α : Type} [DecidableEq κ] : List (κ × α) → κ → Option α
  | [], _ => none
  | (k', v) :: rest, k => if k' = k then some v else alistGet rest k

/-- Association-list insert/replace: replaces the first binding of the key
in place (Python dict assignment keeps the key position) or appends a new
binding at the end (insertion order). -/
def alistSet {κ α : Type} [DecidableEq κ] : List (κ × α) → κ → α → List (κ × α)
  | [], k, v => [(k, v)]
  | (k', v') :: rest, k, v =>
      if k' = k then (k, v) :: rest else (k', v') :: alistSet rest k v

/-- Association-list removal of the first binding of the key (Python dict
del / Redis ZREM for the modelled unique-member sets). -/
def alistRemove {κ α : Type} [DecidableEq κ] : List (κ × α) → κ → List (κ × α)
  | [], _ => []
  | (k', v') :: rest, k =>
      if k' = k then rest else (k', v') :: alistRemove rest k

/-- ASCII lowercase of one character (Python str.lower restricted to the
ASCII range, which covers every pattern the classifier matches). -/
def lowerChar (c : Char) : Char :=
  if 65 ≤ c.toNat ∧ c.toNat ≤ 90 then Char.ofNat (c.toNat + 32) else c

/-- Python error_message.lower() (runner.py line 53). -/
def pyLower (s : String) : String :=
  ⟨s.toList.map lowerChar⟩

/-- Substring containment, Python pat in s (runner.py uses it on lowered
ASCII error messages): pat occurs contiguously in s. -/
def strContains (s pat : String) : Bool :=
  s.toList.tails.any (fun t => pat.toList.isPrefixOf t)

/-- PERMANENT_ERROR_PATTERNS (runner.py lines 28-37). -/
def PERMANENT_ERROR_PATTERNS : List String :=
  ["invalid_input", "validation error", "invalid document", "file not found",
   "permission denied", "authentication failed", "invalid api key",
   "quota exceeded"]

/-- TIMEOUT_ERROR_PATTERNS (runner.py lines 39-44). -/
def TIMEOUT_ERROR_PATTERNS : List String :=
  ["timeout", "timed out", "deadline exceeded", "connection timeout"]

/-- External-service patterns, inlined in classify_error
(runner.py lines 68-71). -/
def EXTERNAL_SERVICE_ERROR_PATTERNS : List String :=
  ["api error", "service unavailable", "rate limit", "500", "502", "503",
   "504"]

/-- classify_error (runner.py lines 47-74): ordered case-insensitive
substring matching; timeout patterns are checked first, then permanent
patterns, then the input-validation conjunction, then external-service
patterns. -/
def classify_error (error_message : String) : FailureReason :=
  let error_lower := pyLower error_message
  if TIMEOUT_ERROR_PATTERNS.any (fun p => strContains error_lower p) then
    .timeout
  else if PERMANENT_ERROR_PATTERNS.any (fun p => strContains error_lower p) then
    .permanent_error
  else if strContains error_lower "input"
      && (strContains error_lower "missing" || strContains error_lower "required") then
    .invalid_input
  else if EXTERNAL_SERVICE_ERROR_PATTERNS.any (fun p => strContains error_lower p) then
    .external_service_error
  else
    .unknown

/-- is_retryable_error (runner.py lines 77-87): everything except
permanent_error and invalid_input is retryable. -/
def is_retryable_error (failure_reason : FailureReason) : Bool :=
  !(failure_reason == .permanent_error || failure_reason == .invalid_input)

/-- calculate_retry_delay (runner.py lines 90-109).  The docstring fixes
attempt as the 1-based current attempt number, so the exponent uses
truncated subtraction on naturals; delays are rationals standing for the
Python floats. -/
def calculate_retry_delay (attempt : Nat)
    (base_delay max_delay multiplier : ℚ) : ℚ :=
  let delay := base_delay * multiplier ^ (attempt - 1)
  min delay max_delay

/-- Retry decision of JobRunner.run_job (runner.py lines 313-316):
can_retry = is_retryable_error(failure_reason) and
current_attempt < job.max_retries.  (In the runner this expression is
unreachable, see JobRunner.run_job below; it is embedded separately as the
documented retry decision.) -/
def can_retry (failure_reason : FailureReason)
    (current_attempt max_retries : Nat) : Bool :=
  is_retryable_error failure_reason && decide (current_attempt < max_retries)

/-- Job record: the pydantic model Job of models.py lines 30-52, field for
field.  Defaults mirror the Python field defaults; created_at has
default_factory=utcnow and is therefore supplied explicitly by every
constructor call of the embedding.  The model declares no attempt_count,
max_retries, last_error or next_retry_at field. -/
structure Job where
  job_id : String
  type : JobType
  status : JobStatus := .queued
  input : Dict := []
  output : Option Dict := none
  error : Option String := none
  progress : ℚ := 0
  project_id : Option String := none
  document_id : Option String := none
  created_by : Option String := none
  created_at : Timestamp
  started_at : Option Timestamp := none
  completed_at : Option Timestamp := none
deriving DecidableEq, Repr

/-- Declared data fields of the pydantic Job model, exactly the field list
of models.py lines 30-52.  Pydantic resolves instance attribute reads and
writes against this table: a name outside it raises AttributeError on read
and ValueError on write. -/
def Job.fieldNames : List String :=
  ["job_id", "type", "status", "input", "output", "error", "progress",
   "project_id", "document_id", "created_by", "created_at", "started_at",
   "completed_at"]

/-- Whether the Job model declares a data field of the given name. -/
def Job.hasField (name : String) : Bool :=
  Job.fieldNames.contains name

/-- Keyword arguments of JobStore.update (store.py lines 42-54): every
parameter defaults to None, and None is the no-change sentinel. -/
structure UpdateArgs where
  status : Option JobStatus := none
  progress : Option ℚ := none
  output : Option Dict := none
  error : Option String := none
  attempt_count : Option Nat := none
  last_error : Option String := none
  next_retry_at : Option Timestamp := none
deriving DecidableEq, Repr

/-- Field-update chain of JobStore.update for the fields the Job model
declares (store.py lines 175-189 for the memory backend, lines 383-397 for
the Redis backend; the two chains are textually identical).  When a status
is supplied: transitioning to running sets started_at if unset, and
transitioning to a terminal status sets completed_at (elif chain). -/
def Job.applyUpdate (job : Job) (a : UpdateArgs) (now : Timestamp) : Job :=
  let job := match a.status with
    | none => job
    | some s =>
      let j := { job with status := s }
      if s = .running ∧ job.started_at = none then
        { j with started_at := some now }
      else if s = .succeeded ∨ s = .failed ∨ s = .cancelled then
        { j with completed_at := some now }
      else j
  let job := match a.progress with
    | none => job
    | some p => { job with progress := p }
  let job := match a.output with
    | none => job
    | some o => { job with output := some o }
  let job := match a.error with
    | none => job
    | some e => { job with error := some e }
  job

/-- First assignment of the update chain that targets an undeclared field
(store.py lines 191-198 / 399-406: job.attempt_count, job.last_error,
job.next_retry_at in that order).  Pydantic v2 raises ValueError at the
first such assignment whose argument is not None. -/
def UpdateArgs.firstUndeclared (a : UpdateArgs) : Option String :=
  if a.attempt_count.isSome then some "attempt_count"
  else if a.last_error.isSome then some "last_error"
  else if a.next_retry_at.isSome then some "next_retry_at"
  else none

/-- MemoryJobStore (store.py lines 109-254): a process-local dict from
job_id to Job. -/
structure MemoryJobStore where
  jobs : List (String × Job) := []
deriving DecidableEq, Repr

/-- MemoryJobStore.create (store.py lines 120-153).  The uuid4 job id and
the clock are supplied explicitly.  Job(..., max_retries=max_retries)
constructs a record without a max_retries field: pydantic v2 silently
ignores the unknown keyword argument, so the ceiling is dropped. -/
def MemoryJobStore.create (st : MemoryJobStore) (job_id : String)
    (now : Timestamp) (job_type : JobType) (input_data : Dict)
    (project_id document_id created_by : Option String)
    (max_retries : Nat) : Job × MemoryJobStore :=
  let _ := max_retries
  let job : Job :=
    { job_id := job_id, type := job_type, status := .queued,
      input := input_data, project_id := project_id,
      document_id := document_id, created_by := created_by,
      created_at := now }
  (job, { jobs := alistSet st.jobs job_id job })

/-- MemoryJobStore.get (store.py lines 155-157). -/
def MemoryJobStore.get (st : MemoryJobStore) (job_id : String) : Option Job :=
  alistGet st.jobs job_id

/-- MemoryJobStore.update (store.py lines 159-208).  Absent job: returns
None without error.  Present job: the stored object is mutated in place
field by field, so the assignments of the declared fields
(status/progress/output/error and the derived timestamps) persist in the
store even though the call itself can never return normally:
* if an undeclared field (attempt_count/last_error/next_retry_at) is
  supplied, the first such assignment raises ValueError (lines 191-198);
* otherwise the call reaches the lines 200-206 debug log, whose
  attempt_count=job.attempt_count keyword argument is evaluated eagerly
  and reads an undeclared attribute, raising AttributeError — so the
  return at line 208 is unreachable for an existing job. -/
def MemoryJobStore.update (st : MemoryJobStore) (now : Timestamp)
    (job_id : String) (a : UpdateArgs) :
    MemoryJobStore × Except PyErr (Option Job) :=
  match alistGet st.jobs job_id with
  | none => (st, .ok none)
  | some job =>
    let job := job.applyUpdate a now
    let st : MemoryJobStore := { jobs := alistSet st.jobs job_id job }
    match a.firstUndeclared with
    | some f => (st, .error (.valueError f))
    | none => (st, .error (.attributeError "attempt_count"))

/-- Sorted set: member to score, scores being timestamps. -/
abbrev ZSet := List (String × Timestamp)

/-- ZADD with a single member (upsert). -/
def zadd (z : ZSet) (member : String) (score : Timestamp) : ZSet :=
  alistSet z member score

/-- ZREM with a single member. -/
def zrem (z : ZSet) (member : String) : ZSet :=
  alistRemove z member

/-- ZCARD. -/
def zcard (z : ZSet) : Nat :=
  z.length

/-- Redis ZREVRANGE ordering: by score descending, ties by member in
reverse lexicographic order. -/
def zrevLe (a b : String × Timestamp) : Bool :=
  decide (b.2 < a.2 ∨ (a.2 = b.2 ∧ b.1 ≤ a.1))

/-- ZREVRANGE key start stop: members with ranks start..stop (inclusive)
under the descending order. -/
def zrevrange (z : ZSet) (start stop : Nat) : List String :=
  (((z.mergeSort zrevLe).map Prod.fst).drop start).take (stop + 1 - start)

/-- Lookup of a keyed sorted set, defaulting to the empty set (a Redis
sorted-set key that was never written behaves as empty). -/
def getZ {κ : Type} [DecidableEq κ] (m : List (κ × ZSet)) (k : κ) : ZSet :=
  (alistGet m k).getD []

/-- RedisJobStore (store.py lines 257-508): the main record keys
(job:<id>, each holding the serialized Job and a remaining TTL in
seconds), the per-status sorted-set indices and the per-project
sorted-set indices.  job_ttl is the configured full TTL
(job_ttl_hours * 3600; default 72h = 259200s). -/
structure RedisJobStore where
  job_ttl : Int
  kv : List (String × (Job × Int)) := []
  status_idx : List (JobStatus × ZSet) := []
  project_idx : List (String × ZSet) := []
deriving DecidableEq, Repr

/-- RedisJobStore.create (store.py lines 304-356): stores the record with
the full TTL (SETEX) and adds the id to the queued-status index and, when
a project id is given, to the project index, with the creation timestamp
as score. -/
def RedisJobStore.create (st : RedisJobStore) (job_id : String)
    (now : Timestamp) (job_type : JobType) (input_data : Dict)
    (project_id document_id created_by : Option String)
    (max_retries : Nat) : Job × RedisJobStore :=
  let _ := max_retries
  let job : Job :=
    { job_id := job_id, type := job_type, status := .queued,
      input := input_data, project_id := project_id,
      document_id := document_id, created_by := created_by,
      created_at := now }
  let st : RedisJobStore :=
    { st with kv := alistSet st.kv job_id (job, st.job_ttl) }
  let qz := zadd (getZ st.status_idx .queued) job_id job.created_at
  let st : RedisJobStore :=
    { st with status_idx := alistSet st.status_idx .queued qz }
  let st : RedisJobStore :=
    match project_id with
    | some pid =>
      let pz := zadd (getZ st.project_idx pid) job_id job.created_at
      { st with project_idx := alistSet st.project_idx pid pz }
    | none => st
  (job, st)

/-- RedisJobStore.get (store.py lines 358-363): deserializes a fresh copy
of the record. -/
def RedisJobStore.get (st : RedisJobStore) (job_id : String) : Option Job :=
  (alistGet st.kv job_id).map Prod.fst

/-- RedisJobStore.update (store.py lines 365-435).  The field-update chain
runs on the deserialized copy, so an undeclared-field assignment raises
ValueError before anything is written back: the Redis state is then
unchanged.  Otherwise the record is written back with SETEX using the
remaining TTL when it is positive, and the full configured TTL only
otherwise (lines 408-418); if the supplied status differs from the old
one, the id is moved between status indices with the current time as
score (lines 420-426). -/
def RedisJobStore.update (st : RedisJobStore) (now : Timestamp)
    (job_id : String) (a : UpdateArgs) :
    RedisJobStore × Except PyErr (Option Job) :=
  match alistGet st.kv job_id with
  | none => (st, .ok none)
  | some (job, ttl) =>
    let old_status := job.status
    let job := job.applyUpdate a now
    match a.firstUndeclared with
    | some f => (st, .error (.valueError f))
    | none =>
      let newTtl : Int := if ttl > 0 then ttl else st.job_ttl
      let st : RedisJobStore :=
        { st with kv := alistSet st.kv job_id (job, newTtl) }
      let st : RedisJobStore :=
        match a.status with
        | some s =>
          if s ≠ old_status then
            let si := alistSet st.status_idx old_status
              (zrem (getZ st.status_idx old_status) job_id)
            let si := alistSet si s (zadd (getZ si s) job_id now)
            { st with status_idx := si }
          else st
        | none => st
      (st, .ok (some job))

/-- DeadLetterEntry (dlq.py lines 32-63): a terminally-failed job's record.
All fields are declared by the pydantic model (unlike Job's retry fields);
dlq_id and dlq_created_at have default factories and are supplied
explicitly by the embedding's constructor calls. -/
structure DeadLetterEntry where
  dlq_id : String
  original_job_id : String
  job_type : JobType
  job_input : Dict := []
  project_id : Option String := none
  document_id : Option String := none
  created_by : Option String := none
  failure_reason : FailureReason := .unknown
  error_message : String
  error_details : Option String := none
  attempt_count : Nat := 1
  original_job_created_at : Timestamp
  first_failure_at : Timestamp
  last_failure_at : Timestamp
  dlq_created_at : Timestamp
  processed : Bool := false
  processed_at : Option Timestamp := none
  requeued_job_id : Option String := none
deriving DecidableEq, Repr

/-- DeadLetterEntry.from_job (dlq.py lines 65-90): copies the job's
metadata; first_failure_at falls back to now when the job has no
completed_at.  (Note: the runner's call site passes
attempt_count=job.attempt_count, which would raise AttributeError, but
that call site is unreachable; see JobRunner.run_job.) -/
def DeadLetterEntry.from_job (dlq_id : String) (now : Timestamp) (job : Job)
    (error_message : String) (failure_reason : FailureReason)
    (error_details : Option String) (attempt_count : Nat) :
    DeadLetterEntry :=
  { dlq_id := dlq_id,
    original_job_id := job.job_id,
    job_type := job.type,
    job_input := job.input,
    project_id := job.project_id,
    document_id := job.document_id,
    created_by := job.created_by,
    failure_reason := failure_reason,
    error_message := error_message,
    error_details := error_details,
    attempt_count := attempt_count,
    original_job_created_at := job.created_at,
    first_failure_at := job.completed_at.getD now,
    last_failure_at := now,
    dlq_created_at := now }

/-- Shared filter chain of the dead-letter list and count operations
(dlq.py lines 274-282 and 299-306; the Redis variant applies the same
three per-entry filters at lines 543-549): keep entries matching the
supplied processed flag, job type and project id. -/
def dlqFilter (es : List DeadLetterEntry) (processed : Option Bool)
    (job_type : Option JobType) (project_id : Option String) :
    List DeadLetterEntry :=
  let es := match processed with
    | none => es
    | some b => es.filter (fun e => e.processed == b)
  let es := match job_type with
    | none => es
    | some t => es.filter (fun e => e.job_type == t)
  let es := match project_id with
    | none => es
    | some p => es.filter (fun e => e.project_id == some p)
  es

/-- Descending stable order on dlq_created_at, the Python
sort(key=dlq_created_at, reverse=True). -/
def dlqNewestFirst (a b : DeadLetterEntry) : Bool :=
  decide (b.dlq_created_at ≤ a.dlq_created_at)

/-- MemoryDeadLetterStore (dlq.py lines 225-374): entries dict plus the
job_id-to-dlq_id index. -/
structure MemoryDeadLetterStore where
  entries : List (String × DeadLetterEntry) := []
  job_id_index : List (String × String) := []
deriving DecidableEq, Repr

/-- MemoryDeadLetterStore.add (dlq.py lines 237-250). -/
def MemoryDeadLetterStore.add (st : MemoryDeadLetterStore)
    (entry : DeadLetterEntry) : DeadLetterEntry × MemoryDeadLetterStore :=
  (entry,
   { entries := alistSet st.entries entry.dlq_id entry,
     job_id_index :=
       alistSet st.job_id_index entry.original_job_id entry.dlq_id })

/-- MemoryDeadLetterStore.get (dlq.py lines 252-254). -/
def MemoryDeadLetterStore.get (st : MemoryDeadLetterStore)
    (dlq_id : String) : Option DeadLetterEntry :=
  alistGet st.entries dlq_id

/-- MemoryDeadLetterStore.get_by_job_id (dlq.py lines 256-261). -/
def MemoryDeadLetterStore.get_by_job_id (st : MemoryDeadLetterStore)
    (job_id : String) : Option DeadLetterEntry :=
  match alistGet st.job_id_index job_id with
  | some dlq_id => alistGet st.entries dlq_id
  | none => none

/-- MemoryDeadLetterStore.list (dlq.py lines 263-288): filter, sort newest
first (stable), then paginate with entries[offset : offset + limit]. -/
def MemoryDeadLetterStore.list (st : MemoryDeadLetterStore)
    (processed : Option Bool) (job_type : Option JobType)
    (project_id : Option String) (limit offset : Nat) :
    List DeadLetterEntry :=
  let entries :=
    dlqFilter (st.entries.map Prod.snd) processed job_type project_id
  ((entries.mergeSort dlqNewestFirst).drop offset).take limit

/-- MemoryDeadLetterStore.count (dlq.py lines 290-308). -/
def MemoryDeadLetterStore.count (st : MemoryDeadLetterStore)
    (processed : Option Bool) (job_type : Option JobType)
    (project_id : Option String) : Nat :=
  (dlqFilter (st.entries.map Prod.snd) processed job_type project_id).length

/-- MemoryDeadLetterStore.mark_processed (dlq.py lines 310-330): mutates
the stored entry in place (processed, processed_at, requeued_job_id) and
returns it; unknown id returns None. -/
def MemoryDeadLetterStore.mark_processed (st : MemoryDeadLetterStore)
    (now : Timestamp) (dlq_id : String) (requeued_job_id : Option String) :
    MemoryDeadLetterStore × Option DeadLetterEntry :=
  match alistGet st.entries dlq_id with
  | none => (st, none)
  | some entry =>
    let entry :=
      { entry with processed := true, processed_at := some now,
                   requeued_job_id := requeued_job_id }
    ({ st with entries := alistSet st.entries dlq_id entry }, some entry)

/-- RedisDeadLetterStore (dlq.py lines 382-669): entry keys dlq:<id>
(record plus remaining TTL), the by-job-id hash, the unprocessed sorted
set and the per-type and per-project sorted sets.  entry_ttl is the
configured full TTL (entry_ttl_days * 86400; default 30 days). -/
structure RedisDeadLetterStore where
  entry_ttl : Int
  entries : List (String × (DeadLetterEntry × Int)) := []
  by_job_id : List (String × String) := []
  unprocessed : ZSet := []
  type_idx : List (JobType × ZSet) := []
  project_idx : List (String × ZSet) := []
deriving DecidableEq, Repr

/-- RedisDeadLetterStore.get (dlq.py lines 486-491). -/
def RedisDeadLetterStore.get (st : RedisDeadLetterStore)
    (dlq_id : String) : Option DeadLetterEntry :=
  (alistGet st.entries dlq_id).map Prod.fst

/-- RedisDeadLetterStore.list (dlq.py lines 500-552): pick ids from the
unprocessed index when processed=False is requested, else from the type
index, else from the project index, else from a key scan; fetch each
entry that still exists and apply the remaining filters. -/
def RedisDeadLetterStore.list (st : RedisDeadLetterStore)
    (processed : Option Bool) (job_type : Option JobType)
    (project_id : Option String) (limit offset : Nat) :
    List DeadLetterEntry :=
  let dlq_ids :=
    if processed = some false then
      zrevrange st.unprocessed offset (offset + limit - 1)
    else
      match job_type with
      | some t => zrevrange (getZ st.type_idx t) offset (offset + limit - 1)
      | none =>
        match project_id with
        | some p =>
          zrevrange (getZ st.project_idx p) offset (offset + limit - 1)
        | none =>
          ((((st.entries.map Prod.fst).take (offset + limit)).drop offset).take limit)
  let fetched :=
    dlq_ids.filterMap (fun i => (alistGet st.entries i).map Prod.fst)
  dlqFilter fetched processed job_type project_id

/-- RedisDeadLetterStore.count (dlq.py lines 554-572): ZCARD of the
matching index, or a full scan when no index applies. -/
def RedisDeadLetterStore.count (st : RedisDeadLetterStore)
    (processed : Option Bool) (job_type : Option JobType)
    (project_id : Option String) : Nat :=
  if processed = some false then zcard st.unprocessed
  else
    match job_type with
    | some t => zcard (getZ st.type_idx t)
    | none =>
      match project_id with
      | some p => zcard (getZ st.project_idx p)
      | none => st.entries.length

/-- RedisDeadLetterStore.mark_processed (dlq.py lines 574-609): updates
the entry record (SETEX with the remaining TTL when positive, else the
full TTL) and removes the id from the unprocessed index only; the type
and project indices are untouched.  Unknown id returns None. -/
def RedisDeadLetterStore.mark_processed (st : RedisDeadLetterStore)
    (now : Timestamp) (dlq_id : String) (requeued_job_id : Option String) :
    RedisDeadLetterStore × Option DeadLetterEntry :=
  match alistGet st.entries dlq_id with
  | none => (st, none)
  | some (entry, ttl) =>
    let entry :=
      { entry with processed := true, processed_at := some now,
                   requeued_job_id := requeued_job_id }
    let newTtl : Int := if ttl > 0 then ttl else st.entry_ttl
    let st : RedisDeadLetterStore :=
      { st with entries := alistSet st.entries dlq_id (entry, newTtl),
                unprocessed := zrem st.unprocessed dlq_id }
    (st, some entry)

/-- Outcome of a pipeline handler (external collaborator): a result
payload, or a raised error carrying its message. -/
inductive HandlerOutcome where
  | success (result : Dict)
  | failure (error_message : String)

/-- Pipeline handler: the dispatch target selected by the job type
(runner.py lines 273-284). -/
abbrev Handler := Job → HandlerOutcome

/-- JobRunner.run_job (runner.py lines 227-372), over the memory-backend
stores (the default job_store_type).
Control flow of the source:
line 241  job = await self.job_store.get(job_id)
line 242  if not job: return None
line 246  if job.status != JobStatus.QUEUED: return job
line 255  current_attempt = job.attempt_count + 1
The Job model declares no attempt_count field, so under pydantic v2 the
read at line 255 raises AttributeError.  The read sits before the
try/except of lines 271-298, so the exception propagates to run_job's
caller, and everything from line 256 on (the update to RUNNING, the
handler dispatch, the retry scheduling and the DLQ hand-off) is
unreachable for a queued job; no store was written before the raise, so
both stores are returned unchanged. -/
def JobRunner.run_job (job_store : MemoryJobStore)
    (dlq_store : MemoryDeadLetterStore) (handler : Handler)
    (job_id : String) :
    (MemoryJobStore × MemoryDeadLetterStore) × Except PyErr (Option Job) :=
  match job_store.get job_id with
  | none => ((job_store, dlq_store), .ok none)
  | some job =>
    if job.status ≠ .queued then
      ((job_store, dlq_store), .ok (some job))
    else
      let _ := handler
      ((job_store, dlq_store), .error (.attributeError "attempt_count"))

/-! Association-list lemmas shared by the store theorems. -/

theorem alistGet_alistSet_self {κ α : Type} [DecidableEq κ]
    (m : List (κ × α)) (k : κ) (v : α) :
    alistGet (alistSet m k v) k = some v := by
  induction m with
  | nil => simp [alistSet, alistGet]
  | cons hd t ih =>
    obtain ⟨k', v'⟩ := hd
    by_cases hk : k' = k
    · simp [alistSet, alistGet, hk]
    · simp [alistSet, alistGet, hk, ih]

theorem alistGet_mem {κ α : Type} [DecidableEq κ]
    {m : List (κ × α)} {k : κ} {v : α}
    (h : alistGet m k = some v) : (k, v) ∈ m := by
  induction m with
  | nil => simp [alistGet] at h
  | cons hd t ih =>
    obtain ⟨k', v'⟩ := hd
    by_cases hk : k' = k
    · subst hk
      simp [alistGet] at h
      simp [h]
    · simp [alistGet, hk] at h
      exact List.mem_cons_of_mem _ (ih h)

theorem length_alistSet_of_get {κ α : Type} [DecidableEq κ]
    {m : List (κ × α)} {k : κ} {w : α}
    (h : alistGet m k = some w) (v : α) :
    (alistSet m k v).length = m.length := by
  induction m with
  | nil => simp [alistGet] at h
  | cons hd t ih =>
    obtain ⟨k', v'⟩ := hd
    by_cases hk : k' = k
    · simp [alistSet, hk]
    · simp [alistGet, hk] at h
      simp [alistSet, hk, ih h]

theorem length_alistRemove_of_get {κ α : Type} [DecidableEq κ]
    {m : List (κ × α)} {k : κ} {w : α}
    (h : alistGet m k = some w) :
    (alistRemove m k).length + 1 = m.length := by
  induction m with
  | nil => simp [alistGet] at h
  | cons hd t ih =>
    obtain ⟨k', v'⟩ := hd
    by_cases hk : k' = k
    · simp [alistRemove, hk]
    · simp [alistGet, hk] at h
      simp [alistRemove, hk]
      exact ih h

theorem countP_snd_alistSet {κ α : Type} [DecidableEq κ]
    (p : α → Bool) {m : List (κ × α)} {k : κ} {w : α}
    (h : alistGet m k = some w) (v : α) :
    ((alistSet m k v).map Prod.snd).countP p + (if p w then 1 else 0)
      = (m.map Prod.snd).countP p + (if p v then 1 else 0) := by
  induction m with
  | nil => simp [alistGet] at h
  | cons hd t ih =>
    obtain ⟨k', v'⟩ := hd
    by_cases hk : k' = k
    · simp [alistGet, hk] at h
      subst h
      simp [alistSet, hk, List.countP_cons]
      omega
    · simp [alistGet, hk] at h
      have ih' := ih h
      simp [alistSet, hk, List.countP_cons, List.countP_map] at ih' ⊢
      omega

/-! Concrete fixtures for code-level evaluations. -/

/-- Fixture: a freshly-created queued qna job. -/
def demoJob1 : Job := { job_id := "j1", type := .qna, created_at := 0 }

/-- Fixture: a memory job store holding only demoJob1. -/
def demoStore1 : MemoryJobStore := { jobs := [("j1", demoJob1)] }

/-- Fixture: a handler that raises a retryable external-service error. -/
def demoHandler503 : Handler := fun _ => .failure "ServiceUnavailable: 503"

/-- C1.  The claim describes the retry/DLQ hand-off of run_job (exactly one
DeadLetterEntry before the job is marked failed, attempt_count bookkeeping,
requeue with next_retry_at on non-final failures).  Evaluating the code on
a queued job whose handler fails shows none of it can ever happen: run_job
raises AttributeError at the read of job.attempt_count (runner.py line
255; the Job model of models.py declares no such field) before any store
write, so the dead-letter store receives no entry, the job store is
untouched, and the job stays queued instead of reaching failed. -/
theorem run_job_failing_handler_creates_no_dlq_entry :
    JobRunner.run_job demoStore1 {} demoHandler503 "j1"
      = ((demoStore1, {}), .error (.attributeError "attempt_count"))
    ∧ demoJob1.status = .queued
    ∧ MemoryDeadLetterStore.count {} none none none = 0 := by
  refine ⟨rfl, rfl, rfl⟩

/-- Fixture: a freshly-created queued document-ingest job. -/
def demoJob2 : Job := { job_id := "j2", type := .document_ingest, created_at := 5 }

/-- Fixture: a memory job store holding only demoJob2. -/
def demoStore2 : MemoryJobStore := { jobs := [("j2", demoJob2)] }

/-- C2.  The claim describes step 3 of run_job: increment attempt_count,
set status running, clear next_retry_at before dispatching.  Evaluating
the code: run_job on a queued job raises AttributeError at the
job.attempt_count read (runner.py line 255), one line before the
job_store.update call of lines 256-261, so the stored job never reaches
running (the store is returned unchanged).  Moreover the update run_job
would have issued (status=RUNNING, attempt_count=current, next_retry_at=
None) itself raises ValueError at the attempt_count assignment (store.py
line 192: the Job model declares no attempt_count field), and the Job
model declares no next_retry_at field that could be cleared. -/
theorem run_job_queued_job_never_reaches_running :
    (JobRunner.run_job demoStore2 {} demoHandler503 "j2").2
      = .error (.attributeError "attempt_count")
    ∧ (JobRunner.run_job demoStore2 {} demoHandler503 "j2").1.1 = demoStore2
    ∧ demoJob2.status = .queued
    ∧ (demoStore2.update 5 "j2"
        { status := some .running, attempt_count := some 1 }).2
      = .error (.valueError "attempt_count")
    ∧ Job.hasField "next_retry_at" = false := by
  refine ⟨rfl, rfl, rfl, rfl, rfl⟩

/-- Fixture: a freshly-created queued plan-summary job. -/
def demoJob4 : Job := { job_id := "j4", type := .plan_summary, created_at := 2 }

/-- Fixture: a memory job store holding only demoJob4. -/
def demoStore4 : MemoryJobStore := { jobs := [("j4", demoJob4)] }

/-- C4.  run_job on a non-existent id indeed returns nothing without
raising (runner.py lines 241-244), but the headline property (run_job
never raises to its caller) is violated by the code: on any existing
queued job, run_job raises AttributeError at the job.attempt_count read
(runner.py line 255), which sits before the try/except of lines 271-310,
so the exception reaches the caller; the handler is never dispatched. -/
theorem run_job_error_boundary_violated :
    JobRunner.run_job demoStore4 {} demoHandler503 "missing"
      = ((demoStore4, {}), .ok none)
    ∧ (JobRunner.run_job demoStore4 {} demoHandler503 "j4").2
      = .error (.attributeError "attempt_count") := by
  refine ⟨rfl, rfl⟩

/-- C5.  Both backends' create return a Job with status queued, created_at
set to the creation instant, and started_at/completed_at unset — but the
returned record has no attempt_count at all: the Job model declares no
such field (and no max_retries field: the max_retries keyword passed by
create is silently dropped by pydantic), so attempt_count == 0 cannot
hold; reading job.attempt_count raises AttributeError. -/
theorem create_returns_queued_job_without_attempt_count :
    (MemoryJobStore.create {} "j5" 7 .qna [] none none none 3).1.status = .queued
    ∧ (MemoryJobStore.create {} "j5" 7 .qna [] none none none 3).1.created_at = 7
    ∧ (MemoryJobStore.create {} "j5" 7 .qna [] none none none 3).1.started_at = none
    ∧ (MemoryJobStore.create {} "j5" 7 .qna [] none none none 3).1.completed_at = none
    ∧ (RedisJobStore.create { job_ttl := 259200 } "j5" 7 .qna [] none none none 3).1.status = .queued
    ∧ (RedisJobStore.create { job_ttl := 259200 } "j5" 7 .qna [] none none none 3).1.created_at = 7
    ∧ (RedisJobStore.create { job_ttl := 259200 } "j5" 7 .qna [] none none none 3).1.started_at = none
    ∧ (RedisJobStore.create { job_ttl := 259200 } "j5" 7 .qna [] none none none 3).1.completed_at = none
    ∧ Job.hasField "attempt_count" = false
    ∧ Job.hasField "max_retries" = false := by
  refine ⟨rfl, rfl, rfl, rfl, rfl, rfl, rfl, rfl, by decide, by decide⟩

/-- Fixture: a queued tender-scope-doc job for the store-invariant claim. -/
def demoJob7 : Job := { job_id := "j7", type := .tender_scope_doc, created_at := 3 }

/-- Fixture: a memory job store holding only demoJob7. -/
def demoStore7 : MemoryJobStore := { jobs := [("j7", demoJob7)] }

/-- Fixture: a Redis job store holding only demoJob7 with 100s left. -/
def demoRedis7 : RedisJobStore :=
  { job_ttl := 259200, kv := [("j7", (demoJob7, 100))] }

/-- C7.  The claim's invariant involves attempt_count and max_retries, but
the Job model declares neither field, so the store cannot track them:
update with an attempt_count raises ValueError on both backends (store.py
lines 191-192 and 399-400) instead of recording the count, and the
attempt-ceiling clauses of the invariant are not represented in the stored
state at all.  (The started_at/completed_at clauses, by contrast, are
maintained by the update chain — see the frame theorem for C10.) -/
theorem update_attempt_count_assignment_raises :
    (demoStore7.update 9 "j7" { attempt_count := some 1 }).2
      = .error (.valueError "attempt_count")
    ∧ (demoRedis7.update 9 "j7" { attempt_count := some 1 }).2
      = .error (.valueError "attempt_count")
    ∧ Job.hasField "attempt_count" = false
    ∧ Job.hasField "max_retries" = false := by
  refine ⟨rfl, rfl, by decide, by decide⟩

/-- Fixture: a queued trade-scope job for the classifier claim. -/
def demoJob3 : Job := { job_id := "j3", type := .trade_scope_extract, created_at := 1 }

/-- Fixture: a memory job store holding only demoJob3. -/
def demoStore3 : MemoryJobStore := { jobs := [("j3", demoJob3)] }

/-- Fixture: a handler that raises a permanent invalid-api-key error. -/
def demoHandlerBadKey : Handler := fun _ => .failure "invalid api key"

/-- C3 counterexample.  An error message can contain the substring
"invalid api key" and still not classify as permanent_error, because
classify_error checks the timeout patterns first (runner.py lines 55-57):
"invalid api key check timed out" contains the permanent pattern yet
classifies as timeout, which is_retryable_error reports retryable.  The
claimed consequence also fails concretely: a job whose handler raises
"invalid api key" is not moved to the DLQ on the first failure — run_job
raises AttributeError at the job.attempt_count read (runner.py line 255)
and the dead-letter store stays empty. -/
theorem classify_error_invalid_api_key_counterexample :
    strContains (pyLower "invalid api key check timed out") "invalid api key" = true
    ∧ classify_error "invalid api key check timed out" = .timeout
    ∧ is_retryable_error (classify_error "invalid api key check timed out") = true
    ∧ (JobRunner.run_job demoStore3 {} demoHandlerBadKey "j3").2
      = .error (.attributeError "attempt_count")
    ∧ (JobRunner.run_job demoStore3 {} demoHandlerBadKey "j3").1.2
      = ({} : MemoryDeadLetterStore) := by
  refine ⟨by decide, by decide, by decide, rfl, rfl⟩

/-- C3 (amended).  For every error message that contains "invalid api key"
(case-insensitively) and contains no timeout pattern, classify_error
returns permanent_error, is_retryable_error(permanent_error) is False, and
the runner's retry decision (runner.py lines 313-316) is False for every
attempt count and every max_retries — the DLQ hand-off itself never runs
because run_job raises before reaching its failure handler. -/
theorem classify_invalid_api_key_without_timeout_is_permanent
    (msg : String)
    (h1 : strContains (pyLower msg) "invalid api key" = true)
    (h2 : TIMEOUT_ERROR_PATTERNS.any (fun p => strContains (pyLower msg) p) = false) :
    classify_error msg = .permanent_error
    ∧ is_retryable_error .permanent_error = false
    ∧ ∀ current_attempt max_retries : Nat,
        can_retry (classify_error msg) current_attempt max_retries = false := by
  have hperm : PERMANENT_ERROR_PATTERNS.any
      (fun p => strContains (pyLower msg) p) = true :=
    List.any_eq_true.mpr ⟨"invalid api key", by decide, h1⟩
  have hc : classify_error msg = .permanent_error := by
    simp [classify_error, h2, hperm]
  refine ⟨hc, rfl, fun current_attempt max_retries => ?_⟩
  simp [can_retry, hc, is_retryable_error]

/-- C3 witness: the amended statement instantiated at the literal message
"invalid api key". -/
theorem classify_invalid_api_key_without_timeout_is_permanent_witness :
    (strContains (pyLower "invalid api key") "invalid api key" = true)
    ∧ (TIMEOUT_ERROR_PATTERNS.any
        (fun p => strContains (pyLower "invalid api key") p) = false)
    ∧ (classify_error "invalid api key" = .permanent_error
       ∧ is_retryable_error .permanent_error = false
       ∧ ∀ current_attempt max_retries : Nat,
           can_retry (classify_error "invalid api key")
             current_attempt max_retries = false) :=
  ⟨by decide, by decide,
   classify_invalid_api_key_without_timeout_is_permanent "invalid api key"
     (by decide) (by decide)⟩

/-- C6 counterexample.  The claim quantifies over every base_delay,
max_delay and multiplier, but for a multiplier below 1 the delay strictly
decreases with the attempt number while still below the cap:
with base 4, cap 100 and multiplier 1/2 the second delay (2) is smaller
than the first (4). -/
theorem calculate_retry_delay_not_monotone_counterexample :
    calculate_retry_delay 2 4 100 (1/2) < calculate_retry_delay 1 4 100 (1/2)
    ∧ calculate_retry_delay 1 4 100 (1/2) < 100 := by
  constructor <;> norm_num [calculate_retry_delay]

/-- C6 (amended).  calculate_retry_delay(attempt) always equals
min(base_delay * multiplier^(attempt-1), max_delay) and is always at most
max_delay; it is monotone non-decreasing in the attempt number whenever
base_delay is non-negative and the multiplier is at least 1 (the
configured defaults are base 5, cap 300, multiplier 2). -/
theorem calculate_retry_delay_formula_monotone_capped :
    (∀ (attempt : Nat) (base_delay max_delay multiplier : ℚ),
        calculate_retry_delay attempt base_delay max_delay multiplier
          = min (base_delay * multiplier ^ (attempt - 1)) max_delay)
    ∧ (∀ (attempt : Nat) (base_delay max_delay multiplier : ℚ),
        1 ≤ attempt → 0 ≤ base_delay → 1 ≤ multiplier →
        calculate_retry_delay attempt base_delay max_delay multiplier
          ≤ calculate_retry_delay (attempt + 1) base_delay max_delay multiplier)
    ∧ (∀ (attempt : Nat) (base_delay max_delay multiplier : ℚ),
        calculate_retry_delay attempt base_delay max_delay multiplier
          ≤ max_delay) := by
  refine ⟨fun a b M m => rfl, ?_, fun a b M m => min_le_right _ _⟩
  intro a b M m ha hb hm
  unfold calculate_retry_delay
  apply min_le_min _ le_rfl
  apply mul_le_mul_of_nonneg_left _ hb
  exact pow_le_pow_right₀ hm (by omega)

/-- C6 witness: the amended statement instantiated at attempt 3 with the
configured defaults (base 5, cap 300, multiplier 2). -/
theorem calculate_retry_delay_formula_monotone_capped_witness :
    ((1:Nat) ≤ 3) ∧ ((0:ℚ) ≤ 5) ∧ ((1:ℚ) ≤ 2)
    ∧ calculate_retry_delay 3 5 300 2 = min (5 * 2 ^ (3 - 1 : Nat)) 300
    ∧ calculate_retry_delay 3 5 300 2 ≤ calculate_retry_delay 4 5 300 2
    ∧ calculate_retry_delay 3 5 300 2 ≤ 300 :=
  ⟨by decide, by decide, by decide,
   calculate_retry_delay_formula_monotone_capped.1 3 5 300 2,
   calculate_retry_delay_formula_monotone_capped.2.1 3 5 300 2
     (by decide) (by decide) (by decide),
   calculate_retry_delay_formula_monotone_capped.2.2 3 5 300 2⟩

/-- Helper: replacing a stored value that satisfies a predicate by one
that does not lowers the predicate count of the stored values by one. -/
theorem countP_snd_alistSet_flip {κ α : Type} [DecidableEq κ]
    (p : α → Bool) {m : List (κ × α)} {k : κ} {w : α}
    (h : alistGet m k = some w) {v : α}
    (hw : p w = true) (hv : p v = false) :
    ((alistSet m k v).map Prod.snd).countP p + 1
      = (m.map Prod.snd).countP p := by
  have hc := countP_snd_alistSet p h v
  rw [hw, hv] at hc
  simpa using hc

/-- Helper: replacing a stored value by one with the same predicate value
leaves the predicate count of the stored values unchanged. -/
theorem countP_snd_alistSet_same {κ α : Type} [DecidableEq κ]
    (p : α → Bool) {m : List (κ × α)} {k : κ} {w : α}
    (h : alistGet m k = some w) {v : α}
    (hwv : p w = p v) :
    ((alistSet m k v).map Prod.snd).countP p = (m.map Prod.snd).countP p := by
  have hc := countP_snd_alistSet p h v
  rw [hwv] at hc
  omega

/-- Helper: everything C9 claims about the memory dead-letter backend's
mark_processed on a stored unprocessed entry. -/
theorem memory_mark_processed_claims (st : MemoryDeadLetterStore)
    (now : Timestamp) (dlq_id : String) (rq : Option String)
    (e : DeadLetterEntry)
    (hk : alistGet st.entries dlq_id = some e)
    (hu : e.processed = false) :
    ∃ e', (st.mark_processed now dlq_id rq).2 = some e'
      ∧ e'.processed = true
      ∧ e'.processed_at = some now
      ∧ (st.mark_processed now dlq_id rq).1.count (some false) none none + 1
          = st.count (some false) none none
      ∧ (∀ t, (st.mark_processed now dlq_id rq).1.count none (some t) none
          = st.count none (some t) none)
      ∧ (∀ p, (st.mark_processed now dlq_id rq).1.count none none (some p)
          = st.count none none (some p))
      ∧ e' ∈ (st.mark_processed now dlq_id rq).1.list none (some e.job_type)
          none st.entries.length 0
      ∧ (∀ p, e.project_id = some p →
          e' ∈ (st.mark_processed now dlq_id rq).1.list none none (some p)
            st.entries.length 0) := by
  set e' : DeadLetterEntry :=
    { e with processed := true, processed_at := some now,
             requeued_job_id := rq } with he'
  have hmp : st.mark_processed now dlq_id rq
      = ({ st with entries := alistSet st.entries dlq_id e' }, some e') := by
    unfold MemoryDeadLetterStore.mark_processed
    rw [hk]
  have hlen : (alistSet st.entries dlq_id e').length = st.entries.length :=
    length_alistSet_of_get hk e'
  have hmem : e' ∈ (alistSet st.entries dlq_id e').map Prod.snd :=
    List.mem_map.mpr ⟨(dlq_id, e'), alistGet_mem (alistGet_alistSet_self _ _ _), rfl⟩
  refine ⟨e', by rw [hmp], rfl, rfl, ?_, ?_, ?_, ?_, ?_⟩
  · rw [hmp]
    simp only [MemoryDeadLetterStore.count, dlqFilter,
      ← List.countP_eq_length_filter]
    exact countP_snd_alistSet_flip _ hk (by simp [hu]) (by simp [he'])
  · intro t
    rw [hmp]
    simp only [MemoryDeadLetterStore.count, dlqFilter,
      ← List.countP_eq_length_filter]
    exact countP_snd_alistSet_same _ hk (by simp [he'])
  · intro p
    rw [hmp]
    simp only [MemoryDeadLetterStore.count, dlqFilter,
      ← List.countP_eq_length_filter]
    exact countP_snd_alistSet_same _ hk (by simp [he'])
  · rw [hmp]
    simp only [MemoryDeadLetterStore.list, dlqFilter, List.drop_zero]
    have hfm : e' ∈ List.filter (fun x => x.job_type == e.job_type)
        ((alistSet st.entries dlq_id e').map Prod.snd) :=
      List.mem_filter.mpr ⟨hmem, by simp [he']⟩
    have hle : ((List.filter (fun x => x.job_type == e.job_type)
        ((alistSet st.entries dlq_id e').map Prod.snd)).mergeSort
          dlqNewestFirst).length ≤ st.entries.length := by
      rw [List.length_mergeSort]
      have h1 := List.length_filter_le
        (fun x : DeadLetterEntry => x.job_type == e.job_type)
        ((alistSet st.entries dlq_id e').map Prod.snd)
      rw [List.length_map, hlen] at h1
      exact h1
    rw [List.take_of_length_le hle]
    exact List.mem_mergeSort.mpr hfm
  · intro p hp
    rw [hmp]
    simp only [MemoryDeadLetterStore.list, dlqFilter, List.drop_zero]
    have hfm : e' ∈ List.filter (fun x => x.project_id == some p)
        ((alistSet st.entries dlq_id e').map Prod.snd) :=
      List.mem_filter.mpr ⟨hmem, by simp [he', hp]⟩
    have hle : ((List.filter (fun x => x.project_id == some p)
        ((alistSet st.entries dlq_id e').map Prod.snd)).mergeSort
          dlqNewestFirst).length ≤ st.entries.length := by
      rw [List.length_mergeSort]
      have h1 := List.length_filter_le
        (fun x : DeadLetterEntry => x.project_id == some p)
        ((alistSet st.entries dlq_id e').map Prod.snd)
      rw [List.length_map, hlen] at h1
      exact h1
    rw [List.take_of_length_le hle]
    exact List.mem_mergeSort.mpr hfm

/-- Helper: everything C9 claims about the Redis dead-letter backend's
mark_processed on a stored entry listed in the unprocessed index. -/
theorem redis_mark_processed_claims (st : RedisDeadLetterStore)
    (now : Timestamp) (dlq_id : String) (rq : Option String)
    (e : DeadLetterEntry) (t : Int) (s : Timestamp)
    (hk : alistGet st.entries dlq_id = some (e, t))
    (hu : alistGet st.unprocessed dlq_id = some s) :
    ∃ e', (st.mark_processed now dlq_id rq).2 = some e'
      ∧ e'.processed = true
      ∧ e'.processed_at = some now
      ∧ (st.mark_processed now dlq_id rq).1.count (some false) none none + 1
          = st.count (some false) none none
      ∧ (∀ t', (st.mark_processed now dlq_id rq).1.count none (some t') none
          = st.count none (some t') none)
      ∧ (∀ p, (st.mark_processed now dlq_id rq).1.count none none (some p)
          = st.count none none (some p))
      ∧ (∀ s2, alistGet (getZ st.type_idx e.job_type) dlq_id = some s2 →
          e' ∈ (st.mark_processed now dlq_id rq).1.list none (some e.job_type)
            none (zcard (getZ st.type_idx e.job_type)) 0)
      ∧ (∀ p s3, e.project_id = some p →
          alistGet (getZ st.project_idx p) dlq_id = some s3 →
          e' ∈ (st.mark_processed now dlq_id rq).1.list none none (some p)
            (zcard (getZ st.project_idx p)) 0) := by
  set e' : DeadLetterEntry :=
    { e with processed := true, processed_at := some now,
             requeued_job_id := rq } with he'
  set newTtl : Int := if t > 0 then t else st.entry_ttl with hT
  have hmp : st.mark_processed now dlq_id rq
      = ({ st with entries := alistSet st.entries dlq_id (e', newTtl),
                   unprocessed := zrem st.unprocessed dlq_id }, some e') := by
    unfold RedisDeadLetterStore.mark_processed
    rw [hk]
  refine ⟨e', by rw [hmp], rfl, rfl, ?_, ?_, ?_, ?_, ?_⟩
  · rw [hmp]
    simp only [RedisDeadLetterStore.count, zcard, zrem, if_pos]
    exact length_alistRemove_of_get hu
  · intro t'
    rw [hmp]
    simp [RedisDeadLetterStore.count]
  · intro p
    rw [hmp]
    simp [RedisDeadLetterStore.count]
  · intro s2 hs2
    rw [hmp]
    have hz : (dlq_id, s2) ∈ getZ st.type_idx e.job_type := alistGet_mem hs2
    have hnz : 1 ≤ (getZ st.type_idx e.job_type).length :=
      List.length_pos.mpr (List.ne_nil_of_mem hz)
    simp only [RedisDeadLetterStore.list, dlqFilter, zrevrange, zcard,
      List.drop_zero]
    have harith : 0 + (getZ st.type_idx e.job_type).length - 1 + 1 - 0
        = (getZ st.type_idx e.job_type).length := by omega
    rw [harith]
    have hids : dlq_id ∈ ((getZ st.type_idx e.job_type).mergeSort zrevLe).map
        Prod.fst :=
      List.mem_map.mpr ⟨(dlq_id, s2), List.mem_mergeSort.mpr hz, rfl⟩
    have hlenz : (((getZ st.type_idx e.job_type).mergeSort zrevLe).map
        Prod.fst).length ≤ (getZ st.type_idx e.job_type).length := by
      rw [List.length_map, List.length_mergeSort]
    rw [List.take_of_length_le hlenz]
    refine List.mem_filter.mpr ⟨?_, by simp [he']⟩
    refine List.mem_filterMap.mpr ⟨dlq_id, hids, ?_⟩
    rw [alistGet_alistSet_self]
    rfl
  · intro p s3 hp hs3
    rw [hmp]
    have hz : (dlq_id, s3) ∈ getZ st.project_idx p := alistGet_mem hs3
    have hnz : 1 ≤ (getZ st.project_idx p).length :=
      List.length_pos.mpr (List.ne_nil_of_mem hz)
    simp only [RedisDeadLetterStore.list, dlqFilter, zrevrange, zcard,
      List.drop_zero]
    have harith : 0 + (getZ st.project_idx p).length - 1 + 1 - 0
        = (getZ st.project_idx p).length := by omega
    rw [harith]
    have hids : dlq_id ∈ ((getZ st.project_idx p).mergeSort zrevLe).map
        Prod.fst :=
      List.mem_map.mpr ⟨(dlq_id, s3), List.mem_mergeSort.mpr hz, rfl⟩
    have hlenz : (((getZ st.project_idx p).mergeSort zrevLe).map
        Prod.fst).length ≤ (getZ st.project_idx p).length := by
      rw [List.length_map, List.length_mergeSort]
    rw [List.take_of_length_le hlenz]
    refine List.mem_filter.mpr ⟨?_, by simp [he', hp]⟩
    refine List.mem_filterMap.mpr ⟨dlq_id, hids, ?_⟩
    rw [alistGet_alistSet_self]
    rfl

/-- C9.  On both dead-letter backends, mark_processed on a stored
unprocessed entry returns the entry with processed true and processed_at
set, decreases the unprocessed count (count with processed=False) by
exactly one, leaves the per-type and per-project counts unchanged, and
leaves the entry visible in the job-type listing (and in the project
listing when the entry has a project); mark_processed on an unknown
dlq_id returns nothing and changes nothing. -/
theorem mark_processed_removes_only_from_unprocessed :
    (∀ (st : MemoryDeadLetterStore) (now : Timestamp) (dlq_id : String)
        (rq : Option String) (e : DeadLetterEntry),
      alistGet st.entries dlq_id = some e → e.processed = false →
      ∃ e', (st.mark_processed now dlq_id rq).2 = some e'
        ∧ e'.processed = true
        ∧ e'.processed_at = some now
        ∧ (st.mark_processed now dlq_id rq).1.count (some false) none none + 1
            = st.count (some false) none none
        ∧ (∀ t, (st.mark_processed now dlq_id rq).1.count none (some t) none
            = st.count none (some t) none)
        ∧ (∀ p, (st.mark_processed now dlq_id rq).1.count none none (some p)
            = st.count none none (some p))
        ∧ e' ∈ (st.mark_processed now dlq_id rq).1.list none (some e.job_type)
            none st.entries.length 0
        ∧ (∀ p, e.project_id = some p →
            e' ∈ (st.mark_processed now dlq_id rq).1.list none none (some p)
              st.entries.length 0))
    ∧ (∀ (st : MemoryDeadLetterStore) (now : Timestamp) (dlq_id : String)
        (rq : Option String),
      alistGet st.entries dlq_id = none →
      st.mark_processed now dlq_id rq = (st, none))
    ∧ (∀ (st : RedisDeadLetterStore) (now : Timestamp) (dlq_id : String)
        (rq : Option String) (e : DeadLetterEntry) (t : Int) (s : Timestamp),
      alistGet st.entries dlq_id = some (e, t) →
      alistGet st.unprocessed dlq_id = some s →
      ∃ e', (st.mark_processed now dlq_id rq).2 = some e'
        ∧ e'.processed = true
        ∧ e'.processed_at = some now
        ∧ (st.mark_processed now dlq_id rq).1.count (some false) none none + 1
            = st.count (some false) none none
        ∧ (∀ t', (st.mark_processed now dlq_id rq).1.count none (some t') none
            = st.count none (some t') none)
        ∧ (∀ p, (st.mark_processed now dlq_id rq).1.count none none (some p)
            = st.count none none (some p))
        ∧ (∀ s2, alistGet (getZ st.type_idx e.job_type) dlq_id = some s2 →
            e' ∈ (st.mark_processed now dlq_id rq).1.list none
              (some e.job_type) none (zcard (getZ st.type_idx e.job_type)) 0)
        ∧ (∀ p s3, e.project_id = some p →
            alistGet (getZ st.project_idx p) dlq_id = some s3 →
            e' ∈ (st.mark_processed now dlq_id rq).1.list none none (some p)
              (zcard (getZ st.project_idx p)) 0))
    ∧ (∀ (st : RedisDeadLetterStore) (now : Timestamp) (dlq_id : String)
        (rq : Option String),
      alistGet st.entries dlq_id = none →
      st.mark_processed now dlq_id rq = (st, none)) := by
  refine ⟨?_, ?_, ?_, ?_⟩
  · intro st now dlq_id rq e hk hu
    exact memory_mark_processed_claims st now dlq_id rq e hk hu
  · intro st now dlq_id rq h
    unfold MemoryDeadLetterStore.mark_processed
    rw [h]
  · intro st now dlq_id rq e t s hk hu
    exact redis_mark_processed_claims st now dlq_id rq e t s hk hu
  · intro st now dlq_id rq h
    unfold RedisDeadLetterStore.mark_processed
    rw [h]

/-- Fixture: a stored unprocessed DLQ entry with a project id. -/
def demoEntry9 : DeadLetterEntry :=
  { dlq_id := "d9", original_job_id := "j9", job_type := .qna,
    project_id := some "p9", error_message := "boom",
    original_job_created_at := 0, first_failure_at := 1,
    last_failure_at := 2, dlq_created_at := 3 }

/-- Fixture: memory DLQ store holding demoEntry9. -/
def demoDlq9 : MemoryDeadLetterStore :=
  { entries := [("d9", demoEntry9)], job_id_index := [("j9", "d9")] }

/-- Fixture: Redis DLQ store holding demoEntry9 in all its indices. -/
def demoRedisDlq9 : RedisDeadLetterStore :=
  { entry_ttl := 2592000, entries := [("d9", (demoEntry9, 500))],
    by_job_id := [("j9", "d9")], unprocessed := [("d9", 3)],
    type_idx := [(.qna, [("d9", 3)])], project_idx := [("p9", [("d9", 3)])] }

/-- C9 witness: the statement instantiated at demoEntry9 on both backends,
including the unknown-id cases. -/
theorem mark_processed_removes_only_from_unprocessed_witness :
    (alistGet demoDlq9.entries "d9" = some demoEntry9)
    ∧ (demoEntry9.processed = false)
    ∧ (∃ e', (demoDlq9.mark_processed 7 "d9" (some "r")).2 = some e'
        ∧ e'.processed = true
        ∧ e'.processed_at = some 7
        ∧ (demoDlq9.mark_processed 7 "d9" (some "r")).1.count (some false)
            none none + 1 = demoDlq9.count (some false) none none
        ∧ (∀ t, (demoDlq9.mark_processed 7 "d9" (some "r")).1.count none
            (some t) none = demoDlq9.count none (some t) none)
        ∧ (∀ p, (demoDlq9.mark_processed 7 "d9" (some "r")).1.count none none
            (some p) = demoDlq9.count none none (some p))
        ∧ e' ∈ (demoDlq9.mark_processed 7 "d9" (some "r")).1.list none
            (some demoEntry9.job_type) none demoDlq9.entries.length 0
        ∧ (∀ p, demoEntry9.project_id = some p →
            e' ∈ (demoDlq9.mark_processed 7 "d9" (some "r")).1.list none none
              (some p) demoDlq9.entries.length 0))
    ∧ (alistGet demoDlq9.entries "missing" = none)
    ∧ (demoDlq9.mark_processed 7 "missing" none = (demoDlq9, none))
    ∧ (alistGet demoRedisDlq9.entries "d9" = some (demoEntry9, 500))
    ∧ (alistGet demoRedisDlq9.unprocessed "d9" = some 3)
    ∧ (∃ e', (demoRedisDlq9.mark_processed 7 "d9" (some "r")).2 = some e'
        ∧ e'.processed = true
        ∧ e'.processed_at = some 7
        ∧ (demoRedisDlq9.mark_processed 7 "d9" (some "r")).1.count (some false)
            none none + 1 = demoRedisDlq9.count (some false) none none
        ∧ (∀ t', (demoRedisDlq9.mark_processed 7 "d9" (some "r")).1.count none
            (some t') none = demoRedisDlq9.count none (some t') none)
        ∧ (∀ p, (demoRedisDlq9.mark_processed 7 "d9" (some "r")).1.count none
            none (some p) = demoRedisDlq9.count none none (some p))
        ∧ (∀ s2, alistGet (getZ demoRedisDlq9.type_idx demoEntry9.job_type)
              "d9" = some s2 →
            e' ∈ (demoRedisDlq9.mark_processed 7 "d9" (some "r")).1.list none
              (some demoEntry9.job_type) none
              (zcard (getZ demoRedisDlq9.type_idx demoEntry9.job_type)) 0)
        ∧ (∀ p s3, demoEntry9.project_id = some p →
            alistGet (getZ demoRedisDlq9.project_idx p) "d9" = some s3 →
            e' ∈ (demoRedisDlq9.mark_processed 7 "d9" (some "r")).1.list none
              none (some p) (zcard (getZ demoRedisDlq9.project_idx p)) 0))
    ∧ (alistGet demoRedisDlq9.entries "missing" = none)
    ∧ (demoRedisDlq9.mark_processed 7 "missing" none = (demoRedisDlq9, none)) :=
  ⟨rfl, rfl,
   mark_processed_removes_only_from_unprocessed.1 demoDlq9 7 "d9" (some "r")
     demoEntry9 rfl rfl,
   rfl,
   mark_processed_removes_only_from_unprocessed.2.1 demoDlq9 7 "missing" none
     rfl,
   rfl, rfl,
   mark_processed_removes_only_from_unprocessed.2.2.1 demoRedisDlq9 7 "d9"
     (some "r") demoEntry9 500 3 rfl rfl,
   rfl,
   mark_processed_removes_only_from_unprocessed.2.2.2 demoRedisDlq9 7
     "missing" none rfl⟩

end BlueprintX
